import Mathlib

/-!
Shallow embedding of the BMP280 kernel driver core
(`src/bmp280.c`, `src/bmp280-iio.c`) and proofs about it.

Machine integers are modelled as `Int` with explicit two's-complement
wrapping (`wrap32`, `wrap64`) applied wherever the C code performs an
operation at `s32`/`s64` width.  Right shift of a signed value is the
arithmetic shift (floor division by a power of two), matching the
compilers the kernel supports.  The I2C bus is modelled as a pure
oracle of responses; every bus-facing operation additionally returns
the list of bus transactions it performed, so that claims about bus
access counts and error propagation can be stated.
The host is taken to be little-endian (the Raspberry Pi target of the
repository), which fixes the byte order of the `u16` calibration
buffer cast and of the samples serialized with CPU endianness.
-/

namespace BMP280

/-! ## Two's-complement machine arithmetic -/

/-- Linux errno for an I/O error. -/
def eio : Int := 5

/-- Linux errno for "no such device". -/
def enodev : Int := 19

/-- Linux errno for "invalid argument". -/
def einval : Int := 22

/-- Reduce an integer to the `s32` (two's complement, 32-bit) range. -/
def wrap32 (x : Int) : Int := (x + 2 ^ 31) % 2 ^ 32 - 2 ^ 31

/-- Reduce an integer to the `s64` (two's complement, 64-bit) range. -/
def wrap64 (x : Int) : Int := (x + 2 ^ 63) % 2 ^ 64 - 2 ^ 63

/-- Arithmetic right shift: floor division by `2 ^ n`. -/
def asr (x : Int) (n : Nat) : Int := Int.fdiv x (2 ^ n)

/-- `s32` arithmetic right shift. -/
def asr32 (x : Int) (n : Nat) : Int := wrap32 (asr x n)

/-- `s32` left shift. -/
def shl32 (x : Int) (n : Nat) : Int := wrap32 (x * 2 ^ n)

/-- `s32` addition. -/
def add32 (a b : Int) : Int := wrap32 (a + b)

/-- `s32` subtraction. -/
def sub32 (a b : Int) : Int := wrap32 (a - b)

/-- `s32` multiplication. -/
def mul32 (a b : Int) : Int := wrap32 (a * b)

/-- `s64` arithmetic right shift. -/
def asr64 (x : Int) (n : Nat) : Int := wrap64 (asr x n)

/-- `s64` left shift. -/
def shl64 (x : Int) (n : Nat) : Int := wrap64 (x * 2 ^ n)

/-- `s64` addition. -/
def add64 (a b : Int) : Int := wrap64 (a + b)

/-- `s64` subtraction. -/
def sub64 (a b : Int) : Int := wrap64 (a - b)

/-- `s64` multiplication. -/
def mul64 (a b : Int) : Int := wrap64 (a * b)

/-- `s64` division: C division truncates toward zero. -/
def tdiv64 (a b : Int) : Int := wrap64 (Int.tdiv a b)

/-- Conversion to `u32`: the low 32 bits, as an unsigned value. -/
def u32of (x : Int) : Int := x % 2 ^ 32

/-! ## Register addresses and device constants (`bmp280.h`) -/

def BMP280_ID : Nat := 0x58
def BMP280_ID_REG : Nat := 0xd0
def BMP280_CTRL_MEAS_REG_ADDRESS : Nat := 0xf4
def BMP280_CONFIG_REG_ADDRESS : Nat := 0xf5
def BMP280_TEMP_CALIBRATION_BASE_REG_ADDRESS : Nat := 0x88
def BMP280_TEMP_RAW_REG_ADDRESS : Nat := 0xfa
def BMP280_PRESS_CALIBRATION_BASE_REG_ADDRESS : Nat := 0x8e
def BMP280_PRESS_RAW_REG_ADDRESS : Nat := 0xf7

/-! ## Bus model -/

/-- One I2C/SMBus transaction, as issued by the driver. -/
inductive BusOp where
  | readByte (addr : Nat)
  | writeByte (addr val : Nat)
  | readBlock (addr len : Nat)
deriving DecidableEq, Repr

/-- The bus transport as a pure oracle of responses.
`readByteFn` returns the `s32` result of `i2c_smbus_read_byte_data`
(data byte, or a negative errno).  `writeByteFn` returns the status of
`i2c_smbus_write_byte_data`.  `readBlockFn` returns the `s32` byte
count reported by `i2c_smbus_read_i2c_block_data` (or a negative
errno) together with the bytes deposited in the caller's buffer. -/
structure Bus where
  readByteFn : Nat → Int
  writeByteFn : Nat → Nat → Int
  readBlockFn : Nat → Nat → Int × List Nat

/-- Fetch byte `i` of a read buffer as the C code's `u8` cell: absent
bytes read as the zero-initialized buffer contents. -/
def u8get (bs : List Nat) (i : Nat) : Nat := bs.getD i 0 % 256

/-- Word `i` of a buffer reinterpreted as a `u16` array
(`(u8 *)buf` cast in the source; little-endian host). -/
def u16at (bs : List Nat) (i : Nat) : Nat :=
  u8get bs (2 * i) + 256 * u8get bs (2 * i + 1)

/-! ## Device context and core operations (`bmp280.c`) -/

/-- `struct bmp280_ctx`: the calibration constants, kept per device.
`dig_T` holds `s32` cells indexed `0..3`, `dig_P` holds `s64` cells
indexed `0..9` (index `0` unused, set to `0` at load). -/
structure bmp280_ctx where
  dig_T : Nat → Int
  dig_P : Nat → Int

/-- `initialize_bmp280`: identity check, then the two configuration
writes.  The C code truncates the `s32` result of the byte read into a
`u8` before comparing, and ignores the return values of both
`i2c_smbus_write_byte_data` calls. -/
def initialize_bmp280 (bus : Bus) : Int × List BusOp :=
  let sensor_id : Int := bus.readByteFn BMP280_ID_REG % 256
  if sensor_id ≠ (BMP280_ID : Int) then
    (-enodev, [BusOp.readByte BMP280_ID_REG])
  else
    let osrs_t : Nat := 0x5
    let osrs_p : Nat := 0x5
    let mode : Nat := 0x3
    let t_sb : Nat := 0x5
    let fltr : Nat := 0x0
    let spi3w_en : Nat := 0x0
    let ctrl_meas : Nat := (osrs_t <<< 5) ||| (osrs_p <<< 2) ||| mode
    let config : Nat := (t_sb <<< 5) ||| (fltr <<< 2) ||| spi3w_en
    let _ := bus.writeByteFn BMP280_CONFIG_REG_ADDRESS config
    let _ := bus.writeByteFn BMP280_CTRL_MEAS_REG_ADDRESS ctrl_meas
    (0, [BusOp.readByte BMP280_ID_REG,
         BusOp.writeByte BMP280_CONFIG_REG_ADDRESS config,
         BusOp.writeByte BMP280_CTRL_MEAS_REG_ADDRESS ctrl_meas])

/-- The body of the two parsing loops of
`read_bmp280_calibration_values`: entry `i` (1-based) of a group is
kept unsigned for `i = 1` and reinterpreted as signed 16-bit
otherwise. -/
def calibEntry (i : Nat) (v : Nat) : Int :=
  if i ≠ 1 ∧ (v : Int) > 32767 then (v : Int) - 65536 else (v : Int)

/-- `read_bmp280_calibration_values`: two block reads (6 temperature
bytes, 18 pressure bytes), each length-checked against `-EIO`, then
the parsing loops fill `dig_T[1..3]` and `dig_P[1..9]`
(index 0 of each array is set to 0). -/
def read_bmp280_calibration_values (bus : Bus) :
    Except Int bmp280_ctx × List BusOp :=
  let tres := bus.readBlockFn BMP280_TEMP_CALIBRATION_BASE_REG_ADDRESS 6
  if tres.fst ≠ 6 then
    (Except.error (-eio),
     [BusOp.readBlock BMP280_TEMP_CALIBRATION_BASE_REG_ADDRESS 6])
  else
    let pres := bus.readBlockFn BMP280_PRESS_CALIBRATION_BASE_REG_ADDRESS 18
    if pres.fst ≠ 18 then
      (Except.error (-eio),
       [BusOp.readBlock BMP280_TEMP_CALIBRATION_BASE_REG_ADDRESS 6,
        BusOp.readBlock BMP280_PRESS_CALIBRATION_BASE_REG_ADDRESS 18])
    else
      (Except.ok
        { dig_T := fun i =>
            if i = 0 then 0
            else if i ≤ 3 then calibEntry i (u16at tres.snd (i - 1)) else 0,
          dig_P := fun i =>
            if i = 0 then 0
            else if i ≤ 9 then calibEntry i (u16at pres.snd (i - 1)) else 0 },
       [BusOp.readBlock BMP280_TEMP_CALIBRATION_BASE_REG_ADDRESS 6,
        BusOp.readBlock BMP280_PRESS_CALIBRATION_BASE_REG_ADDRESS 18])

/-- `setup_bmp280`: initialization, then calibration load, each
failure propagated to the caller. -/
def setup_bmp280 (bus : Bus) : Except Int bmp280_ctx × List BusOp :=
  let ini := initialize_bmp280 bus
  if ini.fst ≠ 0 then (Except.error ini.fst, ini.snd)
  else
    let cal := read_bmp280_calibration_values bus
    (cal.fst, ini.snd ++ cal.snd)

/-- The 24-bit register triple `(val1 << 16) | (val2 << 8) | val3`
assembled from a 3-byte read buffer (bytes are `u8` cells, so the
`s32` arithmetic cannot wrap). -/
def assemble_triple (bs : List Nat) : Nat :=
  (u8get bs 0 <<< 16) ||| (u8get bs 1 <<< 8) ||| u8get bs 2

/-- `read_bmp280_raw_temperature`: one 3-byte block read of the raw
temperature registers; no right shift is applied to the triple. -/
def read_bmp280_raw_temperature (bus : Bus) :
    Except Int Int × List BusOp :=
  let res := bus.readBlockFn BMP280_TEMP_RAW_REG_ADDRESS 3
  if res.fst ≠ 3 then
    (Except.error (-eio), [BusOp.readBlock BMP280_TEMP_RAW_REG_ADDRESS 3])
  else
    (Except.ok (assemble_triple res.snd : Nat),
     [BusOp.readBlock BMP280_TEMP_RAW_REG_ADDRESS 3])

/-- `read_bmp280_raw_pressure`: one 3-byte block read of the raw
pressure registers; no right shift is applied to the triple. -/
def read_bmp280_raw_pressure (bus : Bus) :
    Except Int Int × List BusOp :=
  let res := bus.readBlockFn BMP280_PRESS_RAW_REG_ADDRESS 3
  if res.fst ≠ 3 then
    (Except.error (-eio), [BusOp.readBlock BMP280_PRESS_RAW_REG_ADDRESS 3])
  else
    (Except.ok (assemble_triple res.snd : Nat),
     [BusOp.readBlock BMP280_PRESS_RAW_REG_ADDRESS 3])

/-- `compute_bmp280_t_fine`: the datasheet intermediate, computed — as
in the source — entirely in `s32` arithmetic (`var1`, `var2` and the
return value all have type `s32`). -/
def compute_bmp280_t_fine (raw_temp : Int) (dig_T : Nat → Int) : Int :=
  let var1 := asr32 (mul32 (sub32 (asr32 raw_temp 3) (shl32 (dig_T 1) 1))
    (dig_T 2)) 11
  let var2 := asr32 (mul32 (asr32 (mul32 (sub32 (asr32 raw_temp 4) (dig_T 1))
    (sub32 (asr32 raw_temp 4) (dig_T 1))) 12) (dig_T 3)) 14
  add32 var1 var2

/-- `read_bmp280_processed_temperature`: raw read, drop the 4 low
padding bits, then `(t_fine * 5 + 128) >> 8` in `s32`. -/
def read_bmp280_processed_temperature (bus : Bus) (ctx : bmp280_ctx) :
    Except Int Int × List BusOp :=
  match read_bmp280_raw_temperature bus with
  | (Except.error e, log) => (Except.error e, log)
  | (Except.ok raw, log) =>
    let raw_temp := asr32 raw 4
    (Except.ok (asr32 (add32 (mul32 (compute_bmp280_t_fine raw_temp ctx.dig_T)
      5) 128) 8), log)

/-- Pressure triple of the 6-byte combined read buffer (bytes 0..2). -/
def press_triple (values : List Nat) : Nat :=
  (u8get values 0 <<< 16) ||| (u8get values 1 <<< 8) ||| u8get values 2

/-- Temperature triple of the 6-byte combined read buffer (bytes 3..5). -/
def temp_triple6 (values : List Nat) : Nat :=
  (u8get values 3 <<< 16) ||| (u8get values 4 <<< 8) ||| u8get values 5

/-- The pressure formula's `var1` value at the point of the
divide-by-zero guard (the reassigned `var1` of lines 228–234). -/
def bmp280_pressure_var1 (t_fine : Int) (dig_P : Nat → Int) : Int :=
  let var1 := sub64 t_fine 128000
  let var1 := add64 (asr64 (mul64 (mul64 var1 var1) (dig_P 3)) 8)
    (shl64 (mul64 var1 (dig_P 2)) 12)
  asr64 (mul64 (add64 (shl64 1 47) var1) (dig_P 1)) 33

/-- The pressure formula's `var2` value (lines 228–231). -/
def bmp280_pressure_var2 (t_fine : Int) (dig_P : Nat → Int) : Int :=
  let var1 := sub64 t_fine 128000
  let var2 := mul64 (mul64 var1 var1) (dig_P 6)
  let var2 := add64 var2 (shl64 (mul64 var1 (dig_P 5)) 17)
  add64 var2 (shl64 (dig_P 4) 35)

/-- `read_bmp280_processed_pressure`: one 6-byte block read covering
both raw triples, the `s64` datasheet formula, the `var1 = 0` guard
returning pressure 0 with success, and the final `(u32)p` store. -/
def read_bmp280_processed_pressure (bus : Bus) (ctx : bmp280_ctx) :
    Except Int Int × List BusOp :=
  let res := bus.readBlockFn BMP280_PRESS_RAW_REG_ADDRESS 6
  if res.fst ≠ 6 then
    (Except.error (-eio), [BusOp.readBlock BMP280_PRESS_RAW_REG_ADDRESS 6])
  else
    let raw_press := asr32 (press_triple res.snd : Nat) 4
    let raw_temp := asr32 (temp_triple6 res.snd : Nat) 4
    let t_fine := compute_bmp280_t_fine raw_temp ctx.dig_T
    let var1 := bmp280_pressure_var1 t_fine ctx.dig_P
    if var1 = 0 then
      (Except.ok 0, [BusOp.readBlock BMP280_PRESS_RAW_REG_ADDRESS 6])
    else
      let var2 := bmp280_pressure_var2 t_fine ctx.dig_P
      let p := sub64 1048576 raw_press
      let p := tdiv64 (mul64 (sub64 (shl64 p 31) var2) 3125) var1
      let var1b := asr64 (mul64 (mul64 (ctx.dig_P 9) (asr64 p 13))
        (asr64 p 13)) 25
      let var2b := asr64 (mul64 (ctx.dig_P 8) p) 19
      let p := add64 (asr64 (add64 (add64 p var1b) var2b) 8)
        (shl64 (ctx.dig_P 7) 4)
      (Except.ok (u32of p), [BusOp.readBlock BMP280_PRESS_RAW_REG_ADDRESS 6])

/-! ## IIO channel table and resolver (`bmp280-iio.c`) -/

/-- The two IIO channel types used by this driver. -/
inductive IioChanType where
  | temp
  | pressure
deriving DecidableEq, Repr

/-- The two value-format codes this driver returns from its read hook
(`IIO_VAL_INT`, `IIO_VAL_FRACTIONAL`). -/
inductive IioValType where
  | int
  | fractional
deriving DecidableEq, Repr

/-- `scan_type`: the serialized encoding of one channel. -/
structure ScanType where
  sign : Char
  realbits : Nat
  storagebits : Nat
  shift : Nat
deriving DecidableEq, Repr

/-- `struct iio_chan_spec`, restricted to the fields this driver sets
and reads.  `info_raw` / `info_processed` record which bit
`info_mask_separate` carries.  Endianness is `IIO_CPU` for every
channel and is left implicit (the host is little-endian). -/
structure iio_chan_spec where
  type : IioChanType
  indexed : Bool
  channel : Int
  address : Nat
  info_raw : Bool
  info_processed : Bool
  scan_index : Nat
  scan_type : ScanType
deriving DecidableEq, Repr

instance : Inhabited iio_chan_spec :=
  ⟨{ type := IioChanType.temp, indexed := false, channel := 0, address := 0,
     info_raw := false, info_processed := false, scan_index := 0,
     scan_type := { sign := 'u', realbits := 0, storagebits := 0,
                    shift := 0 } }⟩

/-- The `BMP280_CALIBR_CHANNNEL` macro: a 16-bit, unshifted,
CPU-endian calibration channel. -/
def BMP280_CALIBR_CHANNNEL (ty : IioChanType) (index scanIndex : Nat)
    (sign : Char) (addr : Nat) : iio_chan_spec :=
  { type := ty, indexed := true, channel := (index : Int), address := addr,
    info_raw := true, info_processed := false, scan_index := scanIndex,
    scan_type := { sign := sign, realbits := 16, storagebits := 16,
                   shift := 0 } }

/-- The raw temperature channel (table entry with scan index 3). -/
def bmp280_raw_temp_channel : iio_chan_spec :=
  { type := IioChanType.temp, indexed := true, channel := 3,
    address := BMP280_TEMP_RAW_REG_ADDRESS, info_raw := true,
    info_processed := false, scan_index := 3,
    scan_type := { sign := 's', realbits := 20, storagebits := 32,
                   shift := 4 } }

/-- The processed temperature channel (table entry with scan index 4). -/
def bmp280_processed_temp_channel : iio_chan_spec :=
  { type := IioChanType.temp, indexed := false, channel := 0, address := 0,
    info_raw := false, info_processed := true, scan_index := 4,
    scan_type := { sign := 's', realbits := 32, storagebits := 32,
                   shift := 0 } }

/-- The raw pressure channel (table entry with scan index 14). -/
def bmp280_raw_press_channel : iio_chan_spec :=
  { type := IioChanType.pressure, indexed := true, channel := 9,
    address := BMP280_PRESS_RAW_REG_ADDRESS, info_raw := true,
    info_processed := false, scan_index := 14,
    scan_type := { sign := 's', realbits := 20, storagebits := 32,
                   shift := 4 } }

/-- The processed pressure channel (table entry with scan index 15). -/
def bmp280_processed_press_channel : iio_chan_spec :=
  { type := IioChanType.pressure, indexed := false, channel := 0,
    address := 0, info_raw := false, info_processed := true,
    scan_index := 15,
    scan_type := { sign := 'u', realbits := 32, storagebits := 32,
                   shift := 0 } }

/-- `bmp280_iio_channels`: the declared channel table, in declared
order (scan indices 0..15). -/
def bmp280_iio_channels : List iio_chan_spec :=
  [BMP280_CALIBR_CHANNNEL IioChanType.temp 0 0 'u'
     BMP280_TEMP_CALIBRATION_BASE_REG_ADDRESS,
   BMP280_CALIBR_CHANNNEL IioChanType.temp 1 1 's'
     (BMP280_TEMP_CALIBRATION_BASE_REG_ADDRESS + 2),
   BMP280_CALIBR_CHANNNEL IioChanType.temp 2 2 's'
     (BMP280_TEMP_CALIBRATION_BASE_REG_ADDRESS + 4),
   bmp280_raw_temp_channel,
   bmp280_processed_temp_channel,
   BMP280_CALIBR_CHANNNEL IioChanType.pressure 0 5 'u'
     BMP280_PRESS_CALIBRATION_BASE_REG_ADDRESS,
   BMP280_CALIBR_CHANNNEL IioChanType.pressure 1 6 's'
     (BMP280_PRESS_CALIBRATION_BASE_REG_ADDRESS + 2),
   BMP280_CALIBR_CHANNNEL IioChanType.pressure 2 7 's'
     (BMP280_PRESS_CALIBRATION_BASE_REG_ADDRESS + 4),
   BMP280_CALIBR_CHANNNEL IioChanType.pressure 3 8 's'
     (BMP280_PRESS_CALIBRATION_BASE_REG_ADDRESS + 6),
   BMP280_CALIBR_CHANNNEL IioChanType.pressure 4 9 's'
     (BMP280_PRESS_CALIBRATION_BASE_REG_ADDRESS + 8),
   BMP280_CALIBR_CHANNNEL IioChanType.pressure 5 10 's'
     (BMP280_PRESS_CALIBRATION_BASE_REG_ADDRESS + 10),
   BMP280_CALIBR_CHANNNEL IioChanType.pressure 6 11 's'
     (BMP280_PRESS_CALIBRATION_BASE_REG_ADDRESS + 12),
   BMP280_CALIBR_CHANNNEL IioChanType.pressure 7 12 's'
     (BMP280_PRESS_CALIBRATION_BASE_REG_ADDRESS + 14),
   BMP280_CALIBR_CHANNNEL IioChanType.pressure 8 13 's'
     (BMP280_PRESS_CALIBRATION_BASE_REG_ADDRESS + 16),
   bmp280_raw_press_channel,
   bmp280_processed_press_channel]

/-- Result of the driver read hook: `*val`, `*val2` (left untouched for
integer results) and the returned value-format code. -/
structure ChanReadResult where
  val : Int
  val2 : Option Int
  ret : IioValType
deriving DecidableEq, Repr

/-- `bmp280_iio_read_from_channel`: dispatch from a channel descriptor
to the operation producing its value.  Calibration channels read the
stored constant (the `s64` `dig_P` cell is truncated to the `int`
`*val`); raw channels call driver raw reads; processed channels call
the compensation pipeline (the `u32` pressure is truncated to `int`).
Unrecognized combinations fail with `-EINVAL`. -/
def bmp280_iio_read_from_channel (bus : Bus) (ctx : bmp280_ctx)
    (chan : iio_chan_spec) : Except Int ChanReadResult × List BusOp :=
  if chan.type = IioChanType.temp then
    if chan.info_raw ∧ chan.indexed ∧ 0 ≤ chan.channel ∧ chan.channel < 3 then
      (Except.ok { val := ctx.dig_T (chan.channel.toNat + 1), val2 := none,
                   ret := IioValType.int }, [])
    else if chan.info_raw ∧ chan.indexed ∧ chan.channel = 3 then
      match read_bmp280_raw_temperature bus with
      | (Except.error e, log) => (Except.error e, log)
      | (Except.ok raw, log) =>
        (Except.ok { val := raw, val2 := none, ret := IioValType.int }, log)
    else if chan.info_processed then
      match read_bmp280_processed_temperature bus ctx with
      | (Except.error e, log) => (Except.error e, log)
      | (Except.ok t, log) =>
        (Except.ok { val := t, val2 := some 100,
                     ret := IioValType.fractional }, log)
    else (Except.error (-einval), [])
  else
    if chan.info_raw ∧ chan.indexed ∧ 0 ≤ chan.channel ∧ chan.channel < 9 then
      (Except.ok { val := wrap32 (ctx.dig_P (chan.channel.toNat + 1)),
                   val2 := none, ret := IioValType.int }, [])
    else if chan.info_raw ∧ chan.indexed ∧ chan.channel = 9 then
      match read_bmp280_raw_pressure bus with
      | (Except.error e, log) => (Except.error e, log)
      | (Except.ok raw, log) =>
        (Except.ok { val := raw, val2 := none, ret := IioValType.int }, log)
    else if chan.info_processed then
      match read_bmp280_processed_pressure bus ctx with
      | (Except.error e, log) => (Except.error e, log)
      | (Except.ok press, log) =>
        (Except.ok { val := wrap32 press, val2 := some 256,
                     ret := IioValType.fractional }, log)
    else (Except.error (-einval), [])

/-! ## Triggered sample assembly (`bmp280_iio_trigger_handler`) -/

/-- Little-endian byte serialization of the low `n` bytes of a value. -/
def leBytes : Nat → Nat → List Nat
  | 0, _ => []
  | n + 1, v => v % 256 :: leBytes n (v / 256)

/-- Reassemble a little-endian byte list into the natural number it
denotes. -/
def leNat : List Nat → Nat
  | [] => 0
  | b :: bs => b + 256 * leNat bs

/-- The bytes one channel's store writes into the sample buffer: the
two's-complement low bytes of `*val`, at the channel's storage width,
in host byte order.  The signed and unsigned store branches of the
source write the same memory bytes. -/
def storeCell (st : ScanType) (val : Int) : List Nat :=
  if st.storagebits = 16 then leBytes 2 (Int.toNat (val % 2 ^ 16))
  else if st.storagebits = 32 then leBytes 4 (Int.toNat (val % 2 ^ 32))
  else []

/-- The per-channel loop of the trigger handler: resolve each channel
in order; a failed resolution or an unexpected storage width aborts
the whole assembly (the source jumps to `free_data`); otherwise append
the serialized cell and continue. -/
def bmp280_assemble (bus : Bus) (ctx : bmp280_ctx) :
    List iio_chan_spec → Except Int (List Nat)
  | [] => Except.ok []
  | chan :: rest =>
    match (bmp280_iio_read_from_channel bus ctx chan).fst with
    | Except.error e => Except.error e
    | Except.ok r =>
      if chan.scan_type.storagebits = 16 ∨ chan.scan_type.storagebits = 32 then
        match bmp280_assemble bus ctx rest with
        | Except.error e => Except.error e
        | Except.ok buf => Except.ok (storeCell chan.scan_type r.val ++ buf)
      else Except.error (-einval)

/-- `for_each_set_bit` over the channel table: the channels whose scan
index is set in the active scan mask, in ascending declared order. -/
def active_channels (mask : Nat) : List iio_chan_spec :=
  (bmp280_iio_channels.enum.filter (fun p => mask.testBit p.fst)).map
    Prod.snd

/-- Externally visible outcome of one trigger-handler run: the buffer
handed to `iio_push_to_buffers` (if the call was made), the number of
`iio_trigger_notify_done` calls, and whether an error was logged. -/
structure TriggerOutcome where
  pushed : Option (List Nat)
  notified : Nat
  err_logged : Bool
deriving DecidableEq, Repr

/-- `bmp280_iio_trigger_handler`: allocate (`allocOk` models whether
`kzalloc` succeeds), assemble every active channel, push the buffer on
success (`pushOk` models the `iio_push_to_buffers` status), and notify
trigger completion on every path. -/
def bmp280_iio_trigger_handler (bus : Bus) (ctx : bmp280_ctx) (mask : Nat)
    (allocOk : Bool) (pushOk : Bool) : TriggerOutcome :=
  if ¬ allocOk then { pushed := none, notified := 1, err_logged := true }
  else
    match bmp280_assemble bus ctx (active_channels mask) with
    | Except.error _ => { pushed := none, notified := 1, err_logged := true }
    | Except.ok buf =>
      if pushOk then { pushed := some buf, notified := 1, err_logged := false }
      else { pushed := some buf, notified := 1, err_logged := true }

/-! ## Spec-side definitions used for comparison -/

/-- The `t_fine` computation as claim C1 states it: the two datasheet
fixed-point terms with the intermediate held in `s64`, as the spec's
`rawTemperatureTripleToFine(raw20: s32, calib) -> s64` declares. -/
def spec_t_fine_s64 (raw20 : Int) (dig_T : Nat → Int) : Int :=
  let var1 := asr64 (mul64 (sub64 (asr64 raw20 3) (shl64 (dig_T 1) 1))
    (dig_T 2)) 11
  let var2 := asr64 (mul64 (asr64 (mul64 (sub64 (asr64 raw20 4) (dig_T 1))
    (sub64 (asr64 raw20 4) (dig_T 1))) 12) (dig_T 3)) 14
  add64 var1 var2

/-- `(fine * 5 + 128) >> 8` over the `s64` intermediate of claim C1. -/
def spec_processedTemperature_s64 (raw20 : Int) (dig_T : Nat → Int) : Int :=
  asr64 (add64 (mul64 (spec_t_fine_s64 raw20 dig_T) 5) 128) 8

/-- Claim C1 as amended: the same two datasheet terms, with all
intermediates in `s32` (32-bit two's-complement) arithmetic. -/
def claim_t_fine_s32 (raw20 : Int) (dig_T : Nat → Int) : Int :=
  let var1 := asr32 (mul32 (sub32 (asr32 raw20 3) (shl32 (dig_T 1) 1))
    (dig_T 2)) 11
  let var2 := asr32 (mul32 (asr32 (mul32 (sub32 (asr32 raw20 4) (dig_T 1))
    (sub32 (asr32 raw20 4) (dig_T 1))) 12) (dig_T 3)) 14
  add32 var1 var2

/-- `(fine * 5 + 128) >> 8` over the `s32` intermediate. -/
def claim_processedTemperature_s32 (raw20 : Int) (dig_T : Nat → Int) : Int :=
  asr32 (add32 (mul32 (claim_t_fine_s32 raw20 dig_T) 5) 128) 8

/-- Claim C3's parsing rule as the spec words it: the first value of a
group stays unsigned, every other value `v` becomes `v` when
`v ≤ 32767` and `v - 65536` otherwise. -/
def claimParse (first : Bool) (v : Nat) : Int :=
  if first then (v : Int)
  else if v ≤ 32767 then (v : Int) else (v : Int) - 65536

/-- Reinterpret a 4-byte host-order cell as a signed 32-bit integer. -/
def fromLEBytesSigned32 (bs : List Nat) : Int := wrap32 (leNat bs)

/-- The value of `Except.ok`, if any. -/
def okValue : Except Int Int → Option Int
  | Except.ok v => some v
  | Except.error _ => none

/-- The cell a given channel contributes to the assembled buffer (its
serialized resolved value; unused on failed assemblies). -/
def cellOf (bus : Bus) (ctx : bmp280_ctx) (c : iio_chan_spec) : List Nat :=
  match (bmp280_iio_read_from_channel bus ctx c).fst with
  | Except.ok r => storeCell c.scan_type r.val
  | Except.error _ => []

/-- The 12 calibration-constant channels of the declared table. -/
def bmp280_calibration_channels : List iio_chan_spec :=
  bmp280_iio_channels.take 3 ++ (bmp280_iio_channels.drop 5).take 9

/-! ## Concrete fixtures -/

/-- A healthy bus: the identity read answers the BMP280 id, writes
succeed, block reads return the requested number of zero bytes. -/
def zeroBus : Bus :=
  { readByteFn := fun _ => (BMP280_ID : Int),
    writeByteFn := fun _ _ => 0,
    readBlockFn := fun _ len => ((len : Int), List.replicate len 0) }

/-- A bus whose identity read succeeds but whose byte writes all fail
with `-EIO`. -/
def failWriteBus : Bus :=
  { readByteFn := fun _ => (BMP280_ID : Int),
    writeByteFn := fun _ _ => -eio,
    readBlockFn := fun _ len => ((len : Int), List.replicate len 0) }

/-- A bus on which every block read fails (returns error `-ENODEV`
instead of a byte count). -/
def failBlockBus : Bus :=
  { readByteFn := fun _ => (BMP280_ID : Int),
    writeByteFn := fun _ _ => 0,
    readBlockFn := fun _ _ => (-enodev, []) }

/-- A loadable calibration set at the extreme of the 16-bit range:
`dig_T = (65535, 32767, 32767)`, all pressure constants zero. -/
def cexCtx : bmp280_ctx :=
  { dig_T := fun i =>
      if i = 1 then 65535 else if i = 2 then 32767
      else if i = 3 then 32767 else 0,
    dig_P := fun _ => 0 }

/-! ## Arithmetic lemmas -/

theorem wrap32_eq_self {x : Int} (h1 : -(2 ^ 31) ≤ x) (h2 : x < 2 ^ 31) :
    wrap32 x = x := by
  unfold wrap32
  rw [Int.emod_eq_of_lt (by omega) (by omega)]
  omega

theorem wrap32_bounds (x : Int) :
    -(2 ^ 31) ≤ wrap32 x ∧ wrap32 x < 2 ^ 31 := by
  unfold wrap32
  have h1 := Int.emod_nonneg (x + 2 ^ 31) (b := 2 ^ 32) (by norm_num)
  have h2 := Int.emod_lt_of_pos (x + 2 ^ 31) (b := 2 ^ 32) (by norm_num)
  omega

theorem wrap32_emod (x : Int) : wrap32 (x % 2 ^ 32) = wrap32 x := by
  unfold wrap32
  rw [Int.emod_add_emod]

theorem u8get_lt (bs : List Nat) (i : Nat) : u8get bs i < 256 :=
  Nat.mod_lt _ (by norm_num)

theorem lor_lt_pow {x y n : Nat} (hx : x < 2 ^ n) (hy : y < 2 ^ n) :
    (x ||| y) < 2 ^ n :=
  Nat.bitwise_lt hx hy

theorem assemble_triple_lt (bs : List Nat) : assemble_triple bs < 2 ^ 24 := by
  unfold assemble_triple
  apply lor_lt_pow
  · apply lor_lt_pow
    · have h0 : u8get bs 0 < 2 ^ 8 := u8get_lt bs 0
      exact Nat.shiftLeft_lt h0
    · have h1 : u8get bs 1 < 2 ^ 8 := u8get_lt bs 1
      exact lt_of_lt_of_le (Nat.shiftLeft_lt h1)
        (Nat.pow_le_pow_right (by norm_num) (by norm_num))
  · have h2 : u8get bs 2 < 2 ^ 8 := u8get_lt bs 2
    exact lt_of_lt_of_le h2 (Nat.pow_le_pow_right (by norm_num) (by norm_num))

theorem lor_shifts_mod_pow (a b c n : Nat) (hn8 : n ≤ 8) :
    (a <<< 16 ||| b <<< 8 ||| c) % 2 ^ n = c % 2 ^ n := by
  apply Nat.eq_of_testBit_eq
  intro i
  rcases Nat.lt_or_ge i n with hi | hi
  · have h1 : ¬ (16 ≤ i) := by omega
    have h2 : ¬ (8 ≤ i) := by omega
    simp [Nat.testBit_mod_two_pow, Nat.testBit_lor, Nat.testBit_shiftLeft,
      hi, h1, h2]
  · have h3 : ¬ (i < n) := by omega
    simp [Nat.testBit_mod_two_pow, h3]

theorem assemble_triple_mod16 (bs : List Nat) :
    assemble_triple bs % 16 = u8get bs 2 % 16 := by
  unfold assemble_triple
  simpa using lor_shifts_mod_pow (u8get bs 0) (u8get bs 1) (u8get bs 2) 4
    (by norm_num)

theorem leBytes_length (n v : Nat) : (leBytes n v).length = n := by
  induction n generalizing v with
  | zero => simp [leBytes]
  | succ n ih => simp [leBytes, ih]

theorem leNat_leBytes (n v : Nat) : leNat (leBytes n v) = v % 256 ^ n := by
  induction n generalizing v with
  | zero => simp [leBytes, leNat, Nat.mod_one]
  | succ n ih =>
    rw [leBytes, leNat, ih, pow_succ, mul_comm (256 ^ n) 256, Nat.mod_mul]

theorem storeCell_length (st : ScanType) (v : Int)
    (h : st.storagebits = 16 ∨ st.storagebits = 32) :
    (storeCell st v).length = st.storagebits / 8 := by
  rcases h with h | h <;> simp [storeCell, h, leBytes_length]

theorem processed_temperature_range (bus : Bus) (ctx : bmp280_ctx) (t : Int)
    (h : (read_bmp280_processed_temperature bus ctx).fst = Except.ok t) :
    -(2 ^ 31) ≤ t ∧ t < 2 ^ 31 := by
  unfold read_bmp280_processed_temperature at h
  rcases hrt : read_bmp280_raw_temperature bus with ⟨f, lg⟩
  rw [hrt] at h
  cases f with
  | error e => simp at h
  | ok raw =>
    simp at h
    rw [← h]
    exact wrap32_bounds _

/-! ## Claim C1 -/

/-- C1 (counterexample): at the all-zero register triple (so
`raw20 = 0`) and the loadable calibration set
`dig_T = (65535, 32767, 32767)`, the driver's processed temperature
differs from the claim's formula computed with an `s64` intermediate:
the code holds `t_fine` in `s32`, and the first datasheet product
wraps (the code yields 1, the `s64` formula −1). -/
theorem C1_counterexample :
    okValue (read_bmp280_processed_temperature zeroBus cexCtx).fst ≠
      some (spec_processedTemperature_s64 0 cexCtx.dig_T) := by decide

/-- C1 (amended): for every register triple and every calibration set,
the processed temperature is `(t_fine * 5 + 128) >> 8` where `t_fine`
is computed from `raw20` (the triple right-shifted by 4) by the two
datasheet fixed-point terms with shifts of 3, 4, 11, 12 and 14 bits,
all intermediates held in `s32` (not `s64`) two's-complement
arithmetic, with no floating point. -/
theorem C1_processed_temperature (bus : Bus) (ctx : bmp280_ctx)
    (h : (bus.readBlockFn BMP280_TEMP_RAW_REG_ADDRESS 3).fst = 3) :
    (read_bmp280_processed_temperature bus ctx).fst =
      Except.ok (claim_processedTemperature_s32
        ((assemble_triple
          (bus.readBlockFn BMP280_TEMP_RAW_REG_ADDRESS 3).snd : Int) / 2 ^ 4)
        ctx.dig_T) := by
  have hlt :=
    assemble_triple_lt (bus.readBlockFn BMP280_TEMP_RAW_REG_ADDRESS 3).snd
  set t := assemble_triple (bus.readBlockFn BMP280_TEMP_RAW_REG_ADDRESS 3).snd
    with ht
  have h0 : (0 : Int) ≤ (t : Int) := Int.natCast_nonneg t
  have h24 : ((t : Nat) : Int) < 2 ^ 24 := by exact_mod_cast hlt
  have hdivle : (t : Int) / 2 ^ 4 ≤ (t : Int) := Int.ediv_le_self _ h0
  have hdiv0 : 0 ≤ (t : Int) / 2 ^ 4 := Int.ediv_nonneg h0 (by norm_num)
  have key : asr32 ((t : Nat) : Int) 4 = ((t : Nat) : Int) / 2 ^ 4 := by
    unfold asr32 asr
    rw [Int.fdiv_eq_ediv _ (by norm_num)]
    exact wrap32_eq_self (by omega) (by omega)
  unfold read_bmp280_processed_temperature read_bmp280_raw_temperature
  simp only [h, ne_eq, not_true_eq_false, if_false, ← ht]
  rw [← key]
  rfl

/-- C1 witness: the amended theorem applied at the all-zero bus and
the extreme calibration set. -/
theorem C1_witness :
    (zeroBus.readBlockFn BMP280_TEMP_RAW_REG_ADDRESS 3).fst = 3 ∧
    (read_bmp280_processed_temperature zeroBus cexCtx).fst =
      Except.ok (claim_processedTemperature_s32
        ((assemble_triple
          (zeroBus.readBlockFn BMP280_TEMP_RAW_REG_ADDRESS 3).snd : Int) /
          2 ^ 4)
        cexCtx.dig_T) :=
  ⟨rfl, C1_processed_temperature zeroBus cexCtx rfl⟩

/-! ## Claim C2 -/

/-- C2: whenever the pressure formula's `var1` intermediate (the
divisor `((1 << 47) + var1_terms) * dig_P1 >> 33`) evaluates to 0,
`read_bmp280_processed_pressure` returns pressure 0 with a success
status after its single 6-byte block read; the division branch is
never taken and no error is reported. -/
theorem C2_pressure_var1_zero (bus : Bus) (ctx : bmp280_ctx)
    (h6 : (bus.readBlockFn BMP280_PRESS_RAW_REG_ADDRESS 6).fst = 6)
    (hz : bmp280_pressure_var1
        (compute_bmp280_t_fine
          (asr32 (temp_triple6
            (bus.readBlockFn BMP280_PRESS_RAW_REG_ADDRESS 6).snd : Nat) 4)
          ctx.dig_T)
        ctx.dig_P = 0) :
    read_bmp280_processed_pressure bus ctx =
      (Except.ok 0, [BusOp.readBlock BMP280_PRESS_RAW_REG_ADDRESS 6]) := by
  unfold read_bmp280_processed_pressure
  simp [h6, hz]

/-- C2 witness: with all pressure calibration constants 0 (so
`dig_P1 = 0` and `var1 = 0`), pressure 0 and success are returned. -/
theorem C2_witness :
    read_bmp280_processed_pressure zeroBus cexCtx =
      (Except.ok 0, [BusOp.readBlock BMP280_PRESS_RAW_REG_ADDRESS 6]) :=
  C2_pressure_var1_zero zeroBus cexCtx rfl (by decide)

/-! ## Claim C6 -/

/-- C6 (code behaviour): on a bus whose configuration-byte writes fail
with `-EIO`, `initialize_bmp280` still returns 0 (success): the
statuses of the two `i2c_smbus_write_byte_data` calls are discarded,
contradicting the claim that bus-write errors propagate to the caller
of initialize. -/
theorem C6_config_write_error_discarded :
    failWriteBus.writeByteFn BMP280_CONFIG_REG_ADDRESS 0xa0 = -eio ∧
    failWriteBus.writeByteFn BMP280_CTRL_MEAS_REG_ADDRESS 0xb7 = -eio ∧
    (initialize_bmp280 failWriteBus).fst = 0 := by decide

/-! ## Claim C10 -/

/-- C10: every raw value a successful raw read hands to its caller
lies in `[0, 2^24)`: the three `u8` register bytes are widened
unsigned and OR-combined without sign extension. -/
theorem C10_raw_value_range (bus : Bus) (vt vp : Int)
    (ht : (read_bmp280_raw_temperature bus).fst = Except.ok vt)
    (hp : (read_bmp280_raw_pressure bus).fst = Except.ok vp) :
    0 ≤ vt ∧ vt < 2 ^ 24 ∧ 0 ≤ vp ∧ vp < 2 ^ 24 := by
  unfold read_bmp280_raw_temperature at ht
  unfold read_bmp280_raw_pressure at hp
  dsimp only at ht hp
  split at ht
  · simp at ht
  · simp at ht
    have hb := assemble_triple_lt
      (bus.readBlockFn BMP280_TEMP_RAW_REG_ADDRESS 3).snd
    split at hp
    · simp at hp
    · simp at hp
      have hb2 := assemble_triple_lt
        (bus.readBlockFn BMP280_PRESS_RAW_REG_ADDRESS 3).snd
      refine ⟨?_, ?_, ?_, ?_⟩
      · rw [← ht]; exact Int.natCast_nonneg _
      · rw [← ht]; exact_mod_cast hb
      · rw [← hp]; exact Int.natCast_nonneg _
      · rw [← hp]; exact_mod_cast hb2

/-- C10 witness: on the all-zero bus both raw reads return 0, which
lies in the stated range. -/
theorem C10_witness :
    (0 : Int) ≤ 0 ∧ (0 : Int) < 2 ^ 24 ∧ (0 : Int) ≤ 0 ∧
      (0 : Int) < 2 ^ 24 :=
  C10_raw_value_range zeroBus 0 0 rfl rfl

/-! ## Claim C3 -/

theorem calibEntry_eq_claimParse (i v : Nat) :
    calibEntry i v = claimParse (i == 1) v := by
  unfold calibEntry claimParse
  by_cases h : i = 1
  · subst h
    simp
  · have hb : (i == 1) = false := by simp [h]
    rcases le_or_lt v 32767 with hv | hv
    · have : ¬ ((v : Int) > 32767) := by exact_mod_cast Nat.not_lt.mpr hv
      simp [h, hb, hv, this]
    · have : (v : Int) > 32767 := by exact_mod_cast hv
      simp [h, hb, Nat.not_le.mpr hv, this]

/-- C3: a successful calibration load parses every 16-bit raw word `v`
to `v` when `v ≤ 32767` and `v − 65536` otherwise, except the first
word of each group (`dig_T1`, `dig_P1`), kept unsigned unmodified;
the rule is applied to all 3 temperature and all 9 pressure words. -/
theorem C3_calibration_parsing (bus : Bus)
    (ht : (bus.readBlockFn BMP280_TEMP_CALIBRATION_BASE_REG_ADDRESS 6).fst
      = 6)
    (hp : (bus.readBlockFn BMP280_PRESS_CALIBRATION_BASE_REG_ADDRESS 18).fst
      = 18) :
    ∃ ctx : bmp280_ctx,
      (read_bmp280_calibration_values bus).fst = Except.ok ctx ∧
      (∀ i, 1 ≤ i → i ≤ 3 → ctx.dig_T i =
        claimParse (i == 1)
          (u16at (bus.readBlockFn
            BMP280_TEMP_CALIBRATION_BASE_REG_ADDRESS 6).snd (i - 1))) ∧
      (∀ i, 1 ≤ i → i ≤ 9 → ctx.dig_P i =
        claimParse (i == 1)
          (u16at (bus.readBlockFn
            BMP280_PRESS_CALIBRATION_BASE_REG_ADDRESS 18).snd (i - 1))) := by
  unfold read_bmp280_calibration_values
  dsimp only
  rw [if_neg (by simp [ht]), if_neg (by simp [hp])]
  refine ⟨_, rfl, ?_, ?_⟩
  · intro i h1 h3
    have hi0 : i ≠ 0 := by omega
    simp [hi0, h3, calibEntry_eq_claimParse]
  · intro i h1 h9
    have hi0 : i ≠ 0 := by omega
    simp [hi0, h9, calibEntry_eq_claimParse]

/-- C3 witness: the parsing theorem applied at the all-zero bus. -/
theorem C3_witness :
    ∃ ctx : bmp280_ctx,
      (read_bmp280_calibration_values zeroBus).fst = Except.ok ctx ∧
      (∀ i, 1 ≤ i → i ≤ 3 → ctx.dig_T i =
        claimParse (i == 1)
          (u16at (zeroBus.readBlockFn
            BMP280_TEMP_CALIBRATION_BASE_REG_ADDRESS 6).snd (i - 1))) ∧
      (∀ i, 1 ≤ i → i ≤ 9 → ctx.dig_P i =
        claimParse (i == 1)
          (u16at (zeroBus.readBlockFn
            BMP280_PRESS_CALIBRATION_BASE_REG_ADDRESS 18).snd (i - 1))) :=
  C3_calibration_parsing zeroBus rfl rfl

/-! ## Claim C5 -/

/-- C5: a raw-value channel request (temperature or pressure) performs
exactly one 3-byte block read of that channel's register address and
returns `(byte0 << 16) | (byte1 << 8) | byte2` with no right shift;
in particular the 4 low padding bits of the triple survive in the
returned value (its low 4 bits are those of `byte2`). -/
theorem C5_raw_channel_resolution (bus : Bus) (ctx : bmp280_ctx)
    (ht : (bus.readBlockFn BMP280_TEMP_RAW_REG_ADDRESS 3).fst = 3)
    (hp : (bus.readBlockFn BMP280_PRESS_RAW_REG_ADDRESS 3).fst = 3) :
    bmp280_iio_read_from_channel bus ctx bmp280_raw_temp_channel =
      (Except.ok
        { val := ((u8get (bus.readBlockFn BMP280_TEMP_RAW_REG_ADDRESS 3).snd
              0 <<< 16) |||
            (u8get (bus.readBlockFn BMP280_TEMP_RAW_REG_ADDRESS 3).snd 1
              <<< 8) |||
            u8get (bus.readBlockFn BMP280_TEMP_RAW_REG_ADDRESS 3).snd 2 :
            Nat),
          val2 := none, ret := IioValType.int },
       [BusOp.readBlock bmp280_raw_temp_channel.address 3]) ∧
    bmp280_iio_read_from_channel bus ctx bmp280_raw_press_channel =
      (Except.ok
        { val := ((u8get (bus.readBlockFn BMP280_PRESS_RAW_REG_ADDRESS 3).snd
              0 <<< 16) |||
            (u8get (bus.readBlockFn BMP280_PRESS_RAW_REG_ADDRESS 3).snd 1
              <<< 8) |||
            u8get (bus.readBlockFn BMP280_PRESS_RAW_REG_ADDRESS 3).snd 2 :
            Nat),
          val2 := none, ret := IioValType.int },
       [BusOp.readBlock bmp280_raw_press_channel.address 3]) ∧
    assemble_triple (bus.readBlockFn BMP280_TEMP_RAW_REG_ADDRESS 3).snd % 16
      = u8get (bus.readBlockFn BMP280_TEMP_RAW_REG_ADDRESS 3).snd 2 % 16 ∧
    assemble_triple (bus.readBlockFn BMP280_PRESS_RAW_REG_ADDRESS 3).snd % 16
      = u8get (bus.readBlockFn BMP280_PRESS_RAW_REG_ADDRESS 3).snd 2 % 16 := by
  refine ⟨?_, ?_, assemble_triple_mod16 _, assemble_triple_mod16 _⟩
  · unfold bmp280_iio_read_from_channel read_bmp280_raw_temperature
    simp [bmp280_raw_temp_channel, ht]
    rfl
  · unfold bmp280_iio_read_from_channel read_bmp280_raw_pressure
    simp [bmp280_raw_press_channel, hp]
    rfl

/-- C5 witness: the resolution theorem applied at the all-zero bus. -/
theorem C5_witness :
    bmp280_iio_read_from_channel zeroBus cexCtx bmp280_raw_temp_channel =
      (Except.ok { val := 0, val2 := none, ret := IioValType.int },
       [BusOp.readBlock bmp280_raw_temp_channel.address 3]) :=
  (C5_raw_channel_resolution zeroBus cexCtx rfl rfl).1

/-! ## Claim C9 -/

/-- C9: resolving any of the 12 calibration-constant channels touches
the bus not at all (empty transaction log, result independent of the
bus) and returns the constant stored in the context at load time (the
`s64` pressure cell truncated to the `int` out-parameter); hence the
value is identical before and after any raw-value read. -/
theorem C9_calibration_channels_no_bus (ctx : bmp280_ctx)
    (c : iio_chan_spec) (hc : c ∈ bmp280_calibration_channels)
    (bus bus' : Bus) :
    bmp280_iio_read_from_channel bus ctx c =
      bmp280_iio_read_from_channel bus' ctx c ∧
    (bmp280_iio_read_from_channel bus ctx c).snd = [] ∧
    (bmp280_iio_read_from_channel bus ctx c).fst =
      Except.ok
        { val := if c.type = IioChanType.temp
            then ctx.dig_T (c.channel.toNat + 1)
            else wrap32 (ctx.dig_P (c.channel.toNat + 1)),
          val2 := none, ret := IioValType.int } := by
  fin_cases hc <;>
    refine ⟨rfl, rfl, ?_⟩ <;>
    simp [bmp280_iio_read_from_channel, BMP280_CALIBR_CHANNNEL]

/-- C9 witness: the no-bus-access theorem applied at the first
temperature calibration channel, the extreme calibration set, and two
different buses. -/
theorem C9_witness :
    bmp280_iio_read_from_channel zeroBus cexCtx
        (BMP280_CALIBR_CHANNNEL IioChanType.temp 0 0 'u'
          BMP280_TEMP_CALIBRATION_BASE_REG_ADDRESS) =
      bmp280_iio_read_from_channel failBlockBus cexCtx
        (BMP280_CALIBR_CHANNNEL IioChanType.temp 0 0 'u'
          BMP280_TEMP_CALIBRATION_BASE_REG_ADDRESS) :=
  (C9_calibration_channels_no_bus cexCtx _ (by decide) zeroBus
    failBlockBus).1

/-! ## Assembly structure lemmas -/

theorem bmp280_assemble_structure (bus : Bus) (ctx : bmp280_ctx)
    (l : List iio_chan_spec) (buf : List Nat)
    (h : bmp280_assemble bus ctx l = Except.ok buf) :
    buf = (l.map (cellOf bus ctx)).flatten ∧
    buf.length = (l.map (fun c => c.scan_type.storagebits / 8)).sum := by
  induction l generalizing buf with
  | nil =>
    unfold bmp280_assemble at h
    simp at h
    subst h
    simp
  | cons chan rest ih =>
    unfold bmp280_assemble at h
    split at h
    · simp at h
    · rename_i r hr
      split at h
      · rename_i hsb
        split at h
        · simp at h
        · rename_i buf' hbuf'
          simp at h
          rcases ih buf' hbuf' with ⟨hflat, hlen⟩
          constructor
          · simp [← h, cellOf, hr, hflat]
          · simp [← h, hlen, storeCell_length chan.scan_type r.val hsb]
      · simp at h

theorem bmp280_assemble_ok_resolves (bus : Bus) (ctx : bmp280_ctx)
    (l : List iio_chan_spec) (buf : List Nat)
    (h : bmp280_assemble bus ctx l = Except.ok buf) :
    ∀ c ∈ l, ∃ r, (bmp280_iio_read_from_channel bus ctx c).fst =
      Except.ok r := by
  induction l generalizing buf with
  | nil => simp
  | cons chan rest ih =>
    intro c hc
    unfold bmp280_assemble at h
    split at h
    · simp at h
    · rename_i r hr
      split at h
      · split at h
        · simp at h
        · rename_i buf' hbuf'
          rcases List.mem_cons.mp hc with rfl | hmem
          · exact ⟨r, hr⟩
          · exact ih buf' hbuf' c hmem
      · simp at h

/-! ## Claim C4 -/

/-- C4: whenever assembling the active channels succeeds, the sample
buffer is exactly the concatenation, in ascending declared order, of
one host-order cell per active channel of that channel's storage
width, so its byte length is the sum of the active channels' storage
widths in bytes. -/
theorem C4_assembled_buffer_layout (bus : Bus) (ctx : bmp280_ctx)
    (mask : Nat) (buf : List Nat)
    (h : bmp280_assemble bus ctx (active_channels mask) = Except.ok buf) :
    buf = ((active_channels mask).map (cellOf bus ctx)).flatten ∧
    buf.length =
      ((active_channels mask).map
        (fun c => c.scan_type.storagebits / 8)).sum :=
  bmp280_assemble_structure bus ctx (active_channels mask) buf h

/-- C4 witness: the layout theorem applied with the first temperature
calibration channel active (2-byte cell, total 2 bytes). -/
theorem C4_witness :
    [255, 255] = ((active_channels 1).map (cellOf zeroBus cexCtx)).flatten ∧
    ([255, 255] : List Nat).length =
      ((active_channels 1).map
        (fun c => c.scan_type.storagebits / 8)).sum :=
  C4_assembled_buffer_layout zeroBus cexCtx 1 [255, 255] rfl

/-! ## Claim C7 -/

/-- C7: the trigger handler notifies trigger completion exactly once
on every path (allocation failure, resolution failure, push failure,
success); if any active channel fails to resolve, no buffer at all is
pushed downstream and the failure is reported (logged). -/
theorem C7_trigger_abort_and_notify (bus : Bus) (ctx : bmp280_ctx)
    (mask : Nat) (allocOk pushOk : Bool) :
    (bmp280_iio_trigger_handler bus ctx mask allocOk pushOk).notified = 1 ∧
    (allocOk = false →
      (bmp280_iio_trigger_handler bus ctx mask allocOk pushOk).pushed
        = none) ∧
    ((∃ c ∈ active_channels mask, ∃ e,
        (bmp280_iio_read_from_channel bus ctx c).fst = Except.error e) →
      (bmp280_iio_trigger_handler bus ctx mask allocOk pushOk).pushed
          = none ∧
        (bmp280_iio_trigger_handler bus ctx mask allocOk pushOk).err_logged
          = true) := by
  unfold bmp280_iio_trigger_handler
  by_cases ha : allocOk
  · simp only [ha, not_true_eq_false, if_false]
    cases hasm : bmp280_assemble bus ctx (active_channels mask) with
    | error e => simp
    | ok buf =>
      refine ⟨by cases pushOk <;> simp, by simp [ha], ?_⟩
      rintro ⟨c, hc, e, he⟩
      rcases bmp280_assemble_ok_resolves bus ctx (active_channels mask) buf
        hasm c hc with ⟨r, hr⟩
      rw [he] at hr
      simp at hr
  · simp [ha]

/-- C7 witness: with the raw temperature channel active on a bus whose
block reads fail, the handler pushes nothing and notifies once. -/
theorem C7_witness :
    (bmp280_iio_trigger_handler failBlockBus cexCtx 8 true true).pushed
        = none ∧
      (bmp280_iio_trigger_handler failBlockBus cexCtx 8 true true).notified
        = 1 :=
  ⟨((C7_trigger_abort_and_notify failBlockBus cexCtx 8 true true).2.2
      ⟨bmp280_raw_temp_channel, by decide, -eio, rfl⟩).1,
   (C7_trigger_abort_and_notify failBlockBus cexCtx 8 true true).1⟩

/-! ## Claim C8 -/

/-- C8: with only the processed-temperature channel active, a
successful trigger run pushes a buffer of exactly 4 bytes whose
host-order signed 32-bit reinterpretation equals the integer part the
direct-read interface returns for that channel on the same bus (both
paths run the same compensation computation on the same responses). -/
theorem C8_processed_temp_buffer_matches_direct (bus : Bus)
    (ctx : bmp280_ctx) (t : Int)
    (h : (read_bmp280_processed_temperature bus ctx).fst = Except.ok t) :
    (bmp280_iio_read_from_channel bus ctx
        bmp280_processed_temp_channel).fst =
      Except.ok { val := t, val2 := some 100,
                  ret := IioValType.fractional } ∧
    ∃ buf,
      (bmp280_iio_trigger_handler bus ctx (2 ^ 4) true true).pushed
        = some buf ∧
      buf.length = 4 ∧ fromLEBytesSigned32 buf = t := by
  have hrange := processed_temperature_range bus ctx t h
  rcases hpt : read_bmp280_processed_temperature bus ctx with ⟨f, lg⟩
  rw [hpt] at h
  simp at h
  subst h
  have hchan : (bmp280_iio_read_from_channel bus ctx
      bmp280_processed_temp_channel).fst =
      Except.ok { val := t, val2 := some 100,
                  ret := IioValType.fractional } := by
    unfold bmp280_iio_read_from_channel
    simp [bmp280_processed_temp_channel, hpt]
  refine ⟨hchan, ?_⟩
  have hact : active_channels (2 ^ 4) = [bmp280_processed_temp_channel] := by
    decide
  have hasm : bmp280_assemble bus ctx (active_channels (2 ^ 4)) =
      Except.ok (storeCell bmp280_processed_temp_channel.scan_type t) := by
    rw [hact]
    unfold bmp280_assemble
    rw [hchan]
    norm_num [bmp280_processed_temp_channel, bmp280_assemble]
  refine ⟨storeCell bmp280_processed_temp_channel.scan_type t, ?_, ?_, ?_⟩
  · unfold bmp280_iio_trigger_handler
    rw [hasm]
    simp
  · exact storeCell_length _ _ (Or.inr rfl)
  · show wrap32 (leNat (leBytes 4 (Int.toNat (t % 2 ^ 32)))) = t
    rw [leNat_leBytes]
    have hm : t % 2 ^ 32 < 2 ^ 32 :=
      Int.emod_lt_of_pos t (by norm_num)
    have hm0 : 0 ≤ t % 2 ^ 32 := Int.emod_nonneg t (by norm_num)
    have htn : (t % 2 ^ 32).toNat < 256 ^ 4 := by
      have h4 : (256 : Nat) ^ 4 = 2 ^ 32 := by norm_num
      omega
    rw [Nat.mod_eq_of_lt htn]
    have hcast : (((t % 2 ^ 32).toNat : Int)) = t % 2 ^ 32 :=
      Int.toNat_of_nonneg hm0
    rw [hcast, wrap32_emod]
    exact wrap32_eq_self hrange.1 hrange.2

/-- C8 witness: the refinement theorem applied at the all-zero bus and
extreme calibration set, where the direct read returns 1. -/
theorem C8_witness :
    (bmp280_iio_read_from_channel zeroBus cexCtx
        bmp280_processed_temp_channel).fst =
      Except.ok { val := 1, val2 := some 100,
                  ret := IioValType.fractional } ∧
    ∃ buf,
      (bmp280_iio_trigger_handler zeroBus cexCtx (2 ^ 4) true true).pushed
        = some buf ∧
      buf.length = 4 ∧ fromLEBytesSigned32 buf = 1 :=
  C8_processed_temp_buffer_matches_direct zeroBus cexCtx 1 rfl

end BMP280
